import Mathlib

/-!
Shallow embedding of the WebAR image-tracking application (`src/main.js`)
and proofs about its interaction logic.

Modelling conventions:
* Angles are values `a + b·π` represented as pairs `(a, b) : ℚ × ℚ`; the
  tap handler adds `Math.PI / 4`, i.e. `(0, 1/4)`, the drag handler adds
  `deltaX * 0.01`, i.e. `(dx/100, 0)`, and the render loop adds `0.01`,
  i.e. `(1/100, 0)`.
* JavaScript numbers are modelled as exact rationals.
* Touch events carry the already-computed inter-finger distance
  (the value of `getDistance`) or the horizontal pixel delta.
* The DOM is abstracted to the state bits the code toggles
  (instruction visibility, notification banners).
-/

namespace WebAR

/-- Angles `a + b·π` as pairs of rationals `(a, b)`. -/
abbrev Angle : Type := ℚ × ℚ

/-- The `CONFIG` record of `main.js`. -/
structure Config where
  targetMindPath : String
  modelPath : String
  modelScale : ℚ
  cameraFov : ℚ

/-- `CONFIG` as defined in `main.js` (modelScale 0.3, cameraFov 63). -/
def CONFIG : Config :=
  { targetMindPath := "./assets/target.mind"
    modelPath := "./assets/model.glb"
    modelScale := 3/10
    cameraFov := 63 }

/-- The transform of the loaded model node: `model.rotation`,
`model.position` and `model.scale` in `main.js`. -/
structure Model3D where
  rotX : Angle
  rotY : Angle
  rotZ : Angle
  posX : ℚ
  posY : ℚ
  posZ : ℚ
  scaleX : ℚ
  scaleY : ℚ
  scaleZ : ℚ
deriving DecidableEq

/-- The two scene lights (`ambientLight`, `directionalLight`): colors are
hex RGB values, intensities rationals. -/
structure Lights where
  ambientColor : ℕ
  ambientIntensity : ℚ
  directionalColor : ℕ
  directionalIntensity : ℚ
deriving DecidableEq

/-- The animation player: `animationMixer` together with the
`model.userData.clock`.  `playbackTime` is the accumulated time fed into
`animationMixer.update`; `clockLast` is the clock's last `getDelta`
timestamp. -/
structure MixerState where
  playbackTime : ℚ
  clockLast : ℚ
deriving DecidableEq

/-- A user-visible banner produced by `showError`: the element text plus
the scheduled auto-dismiss delay in milliseconds (`setTimeout` of 5000). -/
structure Notification where
  message : String
  autoDismissMs : Option ℕ
deriving DecidableEq

/-- `showError(message)`: shows the banner and schedules its removal
after 5000 ms. -/
def showErrorNote (message : String) : Notification :=
  { message := message, autoDismissMs := some 5000 }

/-- `Math.max(0.1, Math.min(2, x))` from the pinch handler. -/
def clampScale (x : ℚ) : ℚ := max (1/10) (min 2 x)

/-- One `touchmove` pinch step on the pair
`(modelScale, touchStartDistance)` given the current inter-finger
distance `d` (lines 185–191 of `main.js`): the scale is multiplied by
`currentDistance / touchStartDistance`, clamped to `[0.1, 2]`, and the
baseline distance is rebased to the current distance. -/
def pinchStep (st : ℚ × ℚ) (d : ℚ) : ℚ × ℚ :=
  (clampScale (st.1 * (d / st.2)), d)

/-- A whole pinch gesture: starting from scale `scale0` and baseline
distance `d0` captured at `touchstart`, fold the `touchmove` pinch step
over the successive inter-finger distances `ds`; the result is the scale
applied when the gesture ends. -/
def pinchGesture (scale0 d0 : ℚ) (ds : List ℚ) : ℚ :=
  (ds.foldl pinchStep (scale0, d0)).1

/-- The mutable page-wide state of `main.js`: the module-level variables
together with the transform of the loaded model, the lights, the
animation player, the tap handler's closure accumulator (`rotation` in
`setupTapInteraction`), and the visibility of the instruction prompt. -/
structure AppState where
  model : Option Model3D
  isModelVisible : Bool
  isPaused : Bool
  lightingEnvironment : String
  lights : Option Lights
  touchStartDistance : ℚ
  touchStartRotation : Angle
  modelRotation : Angle
  modelScale : ℚ
  tapRotation : Angle
  instructionsHidden : Bool
  mixer : Option MixerState
deriving DecidableEq

/-- The module-level variable initializers of `main.js`. -/
def initialState : AppState :=
  { model := none
    isModelVisible := false
    isPaused := false
    lightingEnvironment := "default"
    lights := none
    touchStartDistance := 0
    touchStartRotation := (0, 0)
    modelRotation := (0, 0)
    modelScale := 3/10
    tapRotation := (0, 0)
    instructionsHidden := false
    mixer := none }

/-- `anchor.onTargetFound`: mark the target visible and hide the
instruction prompt. -/
def onTargetFound (s : AppState) : AppState :=
  { s with isModelVisible := true, instructionsHidden := true }

/-- `anchor.onTargetLost`: mark the target lost and re-show the
instruction prompt. -/
def onTargetLost (s : AppState) : AppState :=
  { s with isModelVisible := false, instructionsHidden := false }

/-- The `click` listener of `setupTapInteraction`: while the target is
visible and a model is loaded, advance the closure accumulator by
`Math.PI / 4` and assign it to `model.rotation.y`. -/
def clickTap (s : AppState) : AppState :=
  match s.model with
  | some m =>
    if s.isModelVisible then
      let r : Angle := s.tapRotation + ((0 : ℚ), (1/4 : ℚ))
      { s with tapRotation := r, model := some { m with rotY := r } }
    else s
  | none => s

/-- The two-finger branch of the `touchstart` listener: capture the
baseline inter-finger distance and rotation when the target is visible. -/
def touchStartTwo (s : AppState) (d : ℚ) : AppState :=
  if s.isModelVisible then
    { s with touchStartDistance := d, touchStartRotation := s.modelRotation }
  else s

/-- The two-finger (pinch) branch of the `touchmove` listener: guarded by
target visibility and a loaded model, multiply the scale by
`currentDistance / touchStartDistance`, clamp to `[0.1, 2]`, apply to the
model's scale vector, and rebase the baseline distance. -/
def touchMovePinch (s : AppState) (d : ℚ) : AppState :=
  match s.model with
  | some m =>
    if s.isModelVisible then
      let scaleFactor := d / s.touchStartDistance
      let ms := clampScale (s.modelScale * scaleFactor)
      { s with modelScale := ms
               model := some { m with scaleX := ms, scaleY := ms, scaleZ := ms }
               touchStartDistance := d }
    else s
  | none => s

/-- The one-finger (drag) branch of the `touchmove` listener: guarded by
target visibility and a loaded model, add `deltaX * 0.01` to the drag
rotation state and assign it to `model.rotation.y`. -/
def touchMoveDrag (s : AppState) (dx : ℚ) : AppState :=
  match s.model with
  | some m =>
    if s.isModelVisible then
      let r : Angle := s.modelRotation + (dx * (1/100), (0 : ℚ))
      { s with modelRotation := r, model := some { m with rotY := r } }
    else s
  | none => s

/-- The `pause-btn` click listener: toggle the paused flag. -/
def pauseBtnClick (s : AppState) : AppState :=
  { s with isPaused := !s.isPaused }

/-- The `reset-btn` click listener: when a model is loaded, zero its
rotation and position, restore the configured default scale to both the
scale state variable and the model's scale vector, and zero the
drag-rotation state variable. -/
def resetBtnClick (s : AppState) : AppState :=
  match s.model with
  | some m =>
    { s with model := some { m with rotX := ((0 : ℚ), (0 : ℚ))
                                    rotY := ((0 : ℚ), (0 : ℚ))
                                    rotZ := ((0 : ℚ), (0 : ℚ))
                                    posX := 0, posY := 0, posZ := 0
                                    scaleX := CONFIG.modelScale
                                    scaleY := CONFIG.modelScale
                                    scaleZ := CONFIG.modelScale }
             modelScale := CONFIG.modelScale
             modelRotation := ((0 : ℚ), (0 : ℚ)) }
  | none => s

/-- The `scale-slider` input listener: set the scale state variable and,
when a model is loaded, its scale vector. -/
def scaleSliderInput (s : AppState) (v : ℚ) : AppState :=
  let s' := { s with modelScale := v }
  match s'.model with
  | some m => { s' with model := some { m with scaleX := v, scaleY := v, scaleZ := v } }
  | none => s'

/-- The `environments` array of `cycleEnvironment`. -/
def environments : List String := ["default", "bright", "dark", "colored"]

/-- `applyEnvironment()`: when both light references exist, switch on the
current lighting preset; `bright` and `dark` set intensities only,
`colored` sets explicit colors with intensities `0.8/0.8`, and the
default branch restores white light at `0.8/0.8`. -/
def applyEnvironment (s : AppState) : AppState :=
  match s.lights with
  | none => s
  | some L =>
    if s.lightingEnvironment = "bright" then
      { s with lights := some { L with ambientIntensity := 6/5, directionalIntensity := 1 } }
    else if s.lightingEnvironment = "dark" then
      { s with lights := some { L with ambientIntensity := 3/10, directionalIntensity := 2/5 } }
    else if s.lightingEnvironment = "colored" then
      { s with lights := some { ambientColor := 0x4488ff
                                ambientIntensity := 4/5
                                directionalColor := 0xff8844
                                directionalIntensity := 4/5 } }
    else
      { s with lights := some { ambientColor := 0xffffff
                                ambientIntensity := 4/5
                                directionalColor := 0xffffff
                                directionalIntensity := 4/5 } }

/-- `cycleEnvironment()`: advance to the next preset in the fixed order
(`Array.indexOf` yields `-1` for an unknown preset, making the successor
index `0`) and apply it. -/
def cycleEnvironment (s : AppState) : AppState :=
  let currentIndex : ℤ :=
    if s.lightingEnvironment ∈ environments then
      (environments.indexOf s.lightingEnvironment : ℤ)
    else -1
  let next := environments.getD (((currentIndex + 1) % (environments.length : ℤ)).toNat) "default"
  applyEnvironment { s with lightingEnvironment := next }

/-- One tick of `animate()` at wall-clock time `now`: if a model is
present, the target visible and playback not paused, advance the yaw by
`0.01`; if a model and an animation player are present and playback is
not paused, advance the player by the clock delta. -/
def animate (s : AppState) (now : ℚ) : AppState :=
  let s1 :=
    match s.model with
    | some m =>
      if s.isModelVisible && !s.isPaused then
        { s with model := some { m with rotY := m.rotY + ((1/100 : ℚ), (0 : ℚ)) } }
      else s
    | none => s
  match s1.model, s1.mixer with
  | some _, some mx =>
    if !s1.isPaused then
      { s1 with mixer := some { playbackTime := mx.playbackTime + (now - mx.clockLast)
                                clockLast := now } }
    else s1
  | _, _ => s1

/-- The user / page events the listeners of `main.js` react to.
`modelLoaded` is the completion of `loadModel` followed by the attach to
the anchor in `init`; touch events carry the computed distance or the
horizontal delta. -/
inductive Event where
  | targetFound
  | targetLost
  | tap
  | touchStart2 (d : ℚ)
  | pinchMove (d : ℚ)
  | dragMove (dx : ℚ)
  | pauseBtn
  | resetBtn
  | lightBtn
  | scaleSlider (v : ℚ)
  | tick (now : ℚ)
  | modelLoaded (m : Model3D)
deriving DecidableEq

/-- Dispatch one event to the listener that handles it.  A finished model
load stamps the configured default scale onto the node (line 92 of
`main.js`) before it becomes the page's `model`. -/
def step (s : AppState) : Event → AppState
  | .targetFound => onTargetFound s
  | .targetLost => onTargetLost s
  | .tap => clickTap s
  | .touchStart2 d => touchStartTwo s d
  | .pinchMove d => touchMovePinch s d
  | .dragMove dx => touchMoveDrag s dx
  | .pauseBtn => pauseBtnClick s
  | .resetBtn => resetBtnClick s
  | .lightBtn => cycleEnvironment s
  | .scaleSlider v => scaleSliderInput s v
  | .tick now => animate s now
  | .modelLoaded m =>
    { s with model := some { m with scaleX := CONFIG.modelScale
                                    scaleY := CONFIG.modelScale
                                    scaleZ := CONFIG.modelScale } }

/-- Run a list of events from a state. -/
def runEvents (s : AppState) (es : List Event) : AppState :=
  es.foldl step s

/-- Count the taps of an event history that fire the rotation branch,
i.e. those arriving while the target is visible and a model is loaded. -/
def effectiveTaps : AppState → List Event → ℕ
  | _, [] => 0
  | s, .tap :: es =>
    (if s.isModelVisible && s.model.isSome then 1 else 0) + effectiveTaps (step s .tap) es
  | s, e :: es => effectiveTaps (step s e) es

/-- The outcome of one `fetch(..., {method: HEAD}).then(r => r.ok)`
existence probe: the promise resolves with the `ok` flag or rejects. -/
inductive FetchResult where
  | resolved (ok : Bool)
  | rejected
deriving DecidableEq

/-- `checkAssets()`: `Promise.all` of the two probes.  If both resolve,
a non-`ok` target probe (checked first) or model probe shows the
notification naming that file and yields `false`; if either probe
rejects, the `catch` branch yields `false` with no notification. -/
def checkAssets (p0 p1 : FetchResult) : Bool × Option Notification :=
  match p0, p1 with
  | .resolved r0, .resolved r1 =>
    if !r0 then
      (false, some (showErrorNote "Missing assets/target.mind. Put target.mind in the assets folder."))
    else if !r1 then
      (false, some (showErrorNote "Missing assets/model.glb. Put model.glb in the assets folder."))
    else (true, none)
  | _, _ => (false, none)

/-- The successive awaited stages of `init()`. -/
inductive InitStep where
  | checkAssetsStep
  | initThreeJSStep
  | setupImageTrackingStep
  | startARStep
  | loadModelStep
  | setupGestureSupportStep
  | setupControlPanelStep
  | animateStep
deriving DecidableEq

/-- `init()` as the sequence of stages it runs, with the notification it
leaves on screen.  When `checkAssets` reports failure `init` returns at
once; otherwise it bootstraps the scene, binds tracking, starts the AR
session and only then awaits the model load, whose failure is caught by
the top-level handler. -/
def init (p0 p1 : FetchResult) (load : Except String Unit) : List InitStep × Option Notification :=
  let (assetsExist, note) := checkAssets p0 p1
  if assetsExist then
    match load with
    | .ok _ =>
      ([.checkAssetsStep, .initThreeJSStep, .setupImageTrackingStep, .startARStep,
        .loadModelStep, .setupGestureSupportStep, .setupControlPanelStep, .animateStep], note)
    | .error msg =>
      ([.checkAssetsStep, .initThreeJSStep, .setupImageTrackingStep, .startARStep,
        .loadModelStep], some (showErrorNote ("Initialization failed: " ++ msg)))
  else ([.checkAssetsStep], note)

/-- The top-level transport-security guard (line 430 of `main.js`):
unless the origin is `https:` or the hostname is `localhost` or
`127.0.0.1`, show the HTTPS notification and do not register `init`;
otherwise register `init` on `DOMContentLoaded`.  Returns the
notification shown (if any) and whether `init` was registered. -/
def topLevelGuard (protocol hostname : String) : Option Notification × Bool :=
  if protocol ≠ "https:" ∧ hostname ≠ "localhost" ∧ hostname ≠ "127.0.0.1" then
    (some (showErrorNote "WebAR requires HTTPS. Use localhost for testing or deploy to HTTPS."), false)
  else (none, true)

/-! Theorems. -/

lemma clampScale_eq_self (x : ℚ) (h1 : 1/10 ≤ x) (h2 : x ≤ 2) : clampScale x = x := by
  unfold clampScale
  rw [min_eq_right h2, max_eq_right h1]

/-- Claim C1 (amended): over a pinch gesture with baseline distance `d0`
and move distances `ds ++ [dn]`, the applied scale is the per-move
clamped fold; whenever every intermediate product
`previous_scale × (dᵢ / d0)` stays within `[0.1, 2]`, this equals
`clamp(previous_scale × r, 0.1, 2.0)` for the whole-gesture ratio
`r = dn / d0`. -/
theorem pinch_scale_clamped_fold (s0 d0 : ℚ) (ds : List ℚ) (dn : ℚ)
    (hd0 : 0 < d0) (hds : ∀ d ∈ ds, 0 < d)
    (hmid : ∀ d ∈ ds, 1/10 ≤ s0 * (d / d0) ∧ s0 * (d / d0) ≤ 2) :
    pinchGesture s0 d0 (ds ++ [dn]) = clampScale (s0 * (dn / d0)) := by
  induction ds generalizing s0 d0 with
  | nil => rfl
  | cons d tl ih =>
    have hd : 0 < d := hds d (by simp)
    have hbounds := hmid d (by simp)
    have hstep : pinchGesture s0 d0 ((d :: tl) ++ [dn]) =
        pinchGesture (s0 * (d / d0)) d (tl ++ [dn]) := by
      simp only [List.cons_append]
      unfold pinchGesture
      rw [List.foldl_cons]
      unfold pinchStep
      rw [clampScale_eq_self _ hbounds.1 hbounds.2]
    have key : ∀ x : ℚ, (s0 * (d / d0)) * (x / d) = s0 * (x / d0) := by
      intro x
      field_simp
      ring
    rw [hstep, ih (s0 * (d / d0)) d hd (fun q hq => hds q (by simp [hq]))
      (fun q hq => by rw [key q]; exact hmid q (by simp [hq])), key dn]

/-- Claim C1 as stated is false on the code: for the gesture with
previous scale `1`, baseline distance `100` and move distances
`[1000, 100]` the whole-gesture ratio is `1`, so the claim predicts
`clamp(1 × 1) = 1`, but the per-move clamping of the code yields `1/5`. -/
theorem pinch_scale_counterexample :
    pinchGesture 1 100 [1000, 100] ≠ clampScale (1 * (100 / 100)) ∧
    pinchGesture 1 100 [1000, 100] = 1/5 := by
  constructor <;> norm_num [pinchGesture, pinchStep, clampScale]

/-- Witness for `pinch_scale_clamped_fold` at a concrete gesture. -/
theorem pinch_scale_clamped_fold_witness :
    pinchGesture 1 100 [150, 300] = clampScale (1 * (300 / 100)) :=
  pinch_scale_clamped_fold 1 100 [150] 300 (by norm_num)
    (by intro d hd; rw [List.mem_singleton] at hd; rw [hd]; norm_num)
    (by intro d hd; rw [List.mem_singleton] at hd; rw [hd]; constructor <;> norm_num)

lemma runEvents_nil (s : AppState) : runEvents s [] = s := rfl

lemma runEvents_cons (s : AppState) (e : Event) (es : List Event) :
    runEvents s (e :: es) = runEvents (step s e) es := rfl

/-- A sample model transform used to instantiate witnesses. -/
def sampleModel : Model3D :=
  { rotX := (0, 0), rotY := (0, 0), rotZ := (0, 0)
    posX := 0, posY := 0, posZ := 0
    scaleX := 1, scaleY := 1, scaleZ := 1 }

/-- Claim C2: after any prior sequence of taps, drags, pinches,
scale-slider inputs and lighting changes, pressing reset while a model is
loaded zeroes the model's rotation and position, restores the configured
default scale to the scale state variable and the model's scale vector,
and zeroes the drag-rotation state variable. -/
theorem reset_restores_defaults (es : List Event) (m : Model3D)
    (h : (runEvents initialState es).model = some m) :
    (resetBtnClick (runEvents initialState es)).model =
      some { m with rotX := ((0 : ℚ), (0 : ℚ)), rotY := ((0 : ℚ), (0 : ℚ))
                    rotZ := ((0 : ℚ), (0 : ℚ))
                    posX := 0, posY := 0, posZ := 0
                    scaleX := CONFIG.modelScale, scaleY := CONFIG.modelScale
                    scaleZ := CONFIG.modelScale } ∧
    (resetBtnClick (runEvents initialState es)).modelScale = CONFIG.modelScale ∧
    (resetBtnClick (runEvents initialState es)).modelRotation = ((0 : ℚ), (0 : ℚ)) := by
  refine ⟨?_, ?_, ?_⟩ <;> simp [resetBtnClick, h]

/-- Witness for `reset_restores_defaults` after a concrete model load. -/
theorem reset_restores_defaults_witness :
    (resetBtnClick (runEvents initialState [Event.modelLoaded sampleModel])).modelScale =
      CONFIG.modelScale :=
  (reset_restores_defaults [Event.modelLoaded sampleModel]
    { sampleModel with scaleX := CONFIG.modelScale, scaleY := CONFIG.modelScale
                       scaleZ := CONFIG.modelScale } rfl).2.1

/-- Claim C7 (amended): a tap while the target is visible and a model is
loaded advances the tap accumulator by `π/4` (45°, not 90°) and assigns
it to the model's yaw; a tap while the target is not visible, or before
the model is loaded, leaves the state unchanged. -/
theorem tap_rotates_step (s : AppState) :
    (∀ m : Model3D, s.model = some m → s.isModelVisible = true →
      (clickTap s).tapRotation = s.tapRotation + ((0 : ℚ), (1/4 : ℚ)) ∧
      (clickTap s).model.map Model3D.rotY = some (s.tapRotation + ((0 : ℚ), (1/4 : ℚ)))) ∧
    (s.isModelVisible = false ∨ s.model = none → clickTap s = s) := by
  constructor
  · intro m hm hv
    constructor <;> simp [clickTap, hm, hv]
  · rintro (h | h)
    · unfold clickTap
      rcases hm : s.model with _ | m <;> simp [h, hm]
    · simp [clickTap, h]

/-- A state with a freshly loaded, visible model, used for the tap
theorems. -/
def tapDemoState : AppState :=
  { initialState with model := some sampleModel, isModelVisible := true }

/-- Claim C7 as stated is false on the code: from yaw `0`, one tap while
visible yields yaw `π/4` (45°), not the claimed `π/2` (90°). -/
theorem tap_rotates_counterexample :
    (clickTap tapDemoState).model.map Model3D.rotY ≠ some ((0 : ℚ), (1/2 : ℚ)) ∧
    (clickTap tapDemoState).model.map Model3D.rotY = some ((0 : ℚ), (1/4 : ℚ)) := by
  constructor <;> norm_num [clickTap, tapDemoState, initialState, sampleModel, Prod.ext_iff]

/-- Witness for `tap_rotates_step` at a concrete visible state. -/
theorem tap_rotates_step_witness :
    (clickTap tapDemoState).tapRotation = tapDemoState.tapRotation + ((0 : ℚ), (1/4 : ℚ)) :=
  ((tap_rotates_step tapDemoState).1 sampleModel rfl rfl).1

/-- Claim C9: the target-found callback sets the visibility flag and
hides the instruction prompt, the target-lost callback clears the flag
and re-shows the prompt, and while the flag is false a render tick never
advances the model's yaw. -/
theorem target_visibility_effects (s : AppState) (t : ℚ) :
    (onTargetFound s).isModelVisible = true ∧
    (onTargetFound s).instructionsHidden = true ∧
    (onTargetLost s).isModelVisible = false ∧
    (onTargetLost s).instructionsHidden = false ∧
    (s.isModelVisible = false →
      (animate s t).model.map Model3D.rotY = s.model.map Model3D.rotY) := by
  refine ⟨rfl, rfl, rfl, rfl, fun h => ?_⟩
  unfold animate
  rcases hm : s.model with _ | m <;> rcases hx : s.mixer with _ | mx <;>
    cases hp : s.isPaused <;> simp [h, hm, hx, hp]

/-- Witness for `target_visibility_effects` at the initial state. -/
theorem target_visibility_effects_witness :
    (animate initialState 0).model.map Model3D.rotY = initialState.model.map Model3D.rotY :=
  (target_visibility_effects initialState 0).2.2.2.2 rfl

lemma animate_paused (s : AppState) (t : ℚ) (h : s.isPaused = true) :
    animate s t = s := by
  unfold animate
  rcases hm : s.model with _ | m <;> rcases hx : s.mixer with _ | mx <;> simp [h, hm, hx]

lemma runEvents_ticks_paused (s : AppState) (h : s.isPaused = true) (ts : List ℚ) :
    runEvents s (ts.map Event.tick) = s := by
  induction ts with
  | nil => rfl
  | cons t ts ih =>
    show runEvents (step s (.tick t)) (ts.map Event.tick) = s
    rw [show step s (.tick t) = s from animate_paused s t h]
    exact ih

/-- Claim C5: while paused, any number of render-loop ticks leaves the
model's yaw and the animation player's playback time unchanged, and
after toggling pause off both still hold exactly the values they had
when pause was pressed. -/
theorem pause_holds_values (s0 : AppState) (h : s0.isPaused = false) (ts : List ℚ) :
    (runEvents (pauseBtnClick s0) (ts.map Event.tick)).model.map Model3D.rotY =
      s0.model.map Model3D.rotY ∧
    (runEvents (pauseBtnClick s0) (ts.map Event.tick)).mixer.map MixerState.playbackTime =
      s0.mixer.map MixerState.playbackTime ∧
    (pauseBtnClick (runEvents (pauseBtnClick s0) (ts.map Event.tick))).model.map Model3D.rotY =
      s0.model.map Model3D.rotY ∧
    (pauseBtnClick (runEvents (pauseBtnClick s0) (ts.map Event.tick))).mixer.map
      MixerState.playbackTime = s0.mixer.map MixerState.playbackTime := by
  have hp : (pauseBtnClick s0).isPaused = true := by simp [pauseBtnClick, h]
  rw [runEvents_ticks_paused _ hp ts]
  exact ⟨rfl, rfl, rfl, rfl⟩

/-- A paused-scenario state: visible, with a loaded model and a running
animation player. -/
def pauseDemoState : AppState :=
  { initialState with model := some sampleModel
                      isModelVisible := true
                      mixer := some { playbackTime := 2, clockLast := 5 } }

/-- Witness for `pause_holds_values` at a concrete state with two ticks
while paused. -/
theorem pause_holds_values_witness :
    (runEvents (pauseBtnClick pauseDemoState) ([6, 7].map Event.tick)).mixer.map
      MixerState.playbackTime = pauseDemoState.mixer.map MixerState.playbackTime :=
  (pause_holds_values pauseDemoState rfl [6, 7]).2.1

/-- Claim C3 (amended): whenever either probe does not resolve `ok`,
`checkAssets` reports failure and `init` returns before Scene Bootstrap
— no Three.js setup, tracking, camera start or model load runs.  When a
probe resolves with a non-`ok` status the notification names the missing
file (target checked first); when a probe rejects, the `catch` branch
shows no notification. -/
theorem checkAssets_failure_halts (p0 p1 : FetchResult) (load : Except String Unit)
    (h : ¬(p0 = FetchResult.resolved true ∧ p1 = FetchResult.resolved true)) :
    (checkAssets p0 p1).1 = false ∧
    (init p0 p1 load).1 = [InitStep.checkAssetsStep] ∧
    InitStep.initThreeJSStep ∉ (init p0 p1 load).1 ∧
    InitStep.setupImageTrackingStep ∉ (init p0 p1 load).1 ∧
    InitStep.startARStep ∉ (init p0 p1 load).1 ∧
    InitStep.loadModelStep ∉ (init p0 p1 load).1 ∧
    (∀ b, p0 = FetchResult.resolved false → p1 = FetchResult.resolved b →
      (checkAssets p0 p1).2 =
        some (showErrorNote "Missing assets/target.mind. Put target.mind in the assets folder.")) ∧
    (p0 = FetchResult.resolved true → p1 = FetchResult.resolved false →
      (checkAssets p0 p1).2 =
        some (showErrorNote "Missing assets/model.glb. Put model.glb in the assets folder.")) ∧
    ((p0 = FetchResult.rejected ∨ p1 = FetchResult.rejected) → (checkAssets p0 p1).2 = none) := by
  rcases p0 with b0 | _ <;> rcases p1 with b1 | _
  · cases b0 <;> cases b1
    · refine ⟨rfl, rfl, ?_, ?_, ?_, ?_, ?_, ?_, ?_⟩ <;> simp [checkAssets, init]
    · refine ⟨rfl, rfl, ?_, ?_, ?_, ?_, ?_, ?_, ?_⟩ <;> simp [checkAssets, init]
    · refine ⟨rfl, rfl, ?_, ?_, ?_, ?_, ?_, ?_, ?_⟩ <;> simp [checkAssets, init]
    · exact absurd ⟨rfl, rfl⟩ h
  · cases b0 <;> refine ⟨rfl, rfl, ?_, ?_, ?_, ?_, ?_, ?_, ?_⟩ <;> simp [checkAssets, init]
  · cases b1 <;> refine ⟨rfl, rfl, ?_, ?_, ?_, ?_, ?_, ?_, ?_⟩ <;> simp [checkAssets, init]
  · refine ⟨rfl, rfl, ?_, ?_, ?_, ?_, ?_, ?_, ?_⟩ <;> simp [checkAssets, init]

/-- Claim C3 as stated is false on the code: when the target probe
rejects (fetch failure) while the model probe succeeds, `checkAssets`
returns `false` through its `catch` branch without showing any
notification, so no user-visible message names a missing file. -/
theorem checkAssets_failure_counterexample :
    (checkAssets FetchResult.rejected (FetchResult.resolved true)).1 = false ∧
    (checkAssets FetchResult.rejected (FetchResult.resolved true)).2 = none :=
  ⟨rfl, rfl⟩

/-- Witness for `checkAssets_failure_halts` with the target descriptor
missing. -/
theorem checkAssets_failure_halts_witness :
    (checkAssets (FetchResult.resolved false) (FetchResult.resolved true)).1 = false ∧
    (checkAssets (FetchResult.resolved false) (FetchResult.resolved true)).2 =
      some (showErrorNote "Missing assets/target.mind. Put target.mind in the assets folder.") :=
  have h := checkAssets_failure_halts (FetchResult.resolved false) (FetchResult.resolved true)
    (Except.ok ()) (by simp)
  ⟨h.1, h.2.2.2.2.2.2.1 true rfl rfl⟩

/-- Claim C4: when both probes resolve `ok`, `init` runs Scene Bootstrap
(`initThreeJS`), tracking setup, the AR-session start and only then the
model load, in that order — the camera start is sequenced before, and
therefore never waits on, the model download. -/
theorem init_success_order (load : Except String Unit) :
    (init (FetchResult.resolved true) (FetchResult.resolved true) load).1.take 5 =
      [InitStep.checkAssetsStep, InitStep.initThreeJSStep, InitStep.setupImageTrackingStep,
       InitStep.startARStep, InitStep.loadModelStep] := by
  cases load <;> rfl

/-- Claim C8 (amended): on an insecure origin that is not localhost, the
top-level guard does not register `init` — so no asset check, scene,
camera or loader work can begin — and shows the HTTPS notification,
which auto-dismisses after 5000 ms rather than persisting. -/
theorem https_guard_blocks (protocol hostname : String)
    (h1 : protocol ≠ "https:") (h2 : hostname ≠ "localhost")
    (h3 : hostname ≠ "127.0.0.1") :
    (topLevelGuard protocol hostname).2 = false ∧
    (topLevelGuard protocol hostname).1 =
      some { message := "WebAR requires HTTPS. Use localhost for testing or deploy to HTTPS."
             autoDismissMs := some 5000 } := by
  constructor <;> simp [topLevelGuard, h1, h2, h3, showErrorNote]

/-- Claim C8 as stated is false on the code: at `http:` origin
`www.example.com`, the notification shown by the guard is the standard
`showError` banner scheduled to auto-dismiss after 5000 ms, not a
persistent one. -/
theorem https_guard_counterexample :
    (topLevelGuard "http:" "www.example.com").1.map Notification.autoDismissMs =
      some (some 5000) ∧
    (topLevelGuard "http:" "www.example.com").2 = false := by
  constructor <;> simp [topLevelGuard, showErrorNote]

/-- Witness for `https_guard_blocks` at a concrete insecure origin. -/
theorem https_guard_blocks_witness :
    (topLevelGuard "http:" "example.org").2 = false :=
  (https_guard_blocks "http:" "example.org" (by decide) (by decide) (by decide)).1

/-- The light state installed by `initThreeJS` and restored by the
`default` preset: white light at intensities `0.8/0.8`. -/
def defaultLights : Lights :=
  { ambientColor := 0xffffff, ambientIntensity := 4/5
    directionalColor := 0xffffff, directionalIntensity := 4/5 }

lemma cycleEnvironment_from_default (s : AppState) (L : Lights)
    (henv : s.lightingEnvironment = "default") (hl : s.lights = some L) :
    cycleEnvironment s =
      { s with lightingEnvironment := "bright"
               lights := some { L with ambientIntensity := 6/5, directionalIntensity := 1 } } := by
  obtain ⟨mo, vis, pau, env, li, tsd, tsr, mr, msc, tr, ins, mx⟩ := s
  dsimp only at henv hl
  subst henv
  subst hl
  simp [cycleEnvironment, applyEnvironment, environments,
    show List.indexOf ("default" : String) ["default", "bright", "dark", "colored"] = 0 from rfl]

lemma cycleEnvironment_from_bright (s : AppState) (L : Lights)
    (henv : s.lightingEnvironment = "bright") (hl : s.lights = some L) :
    cycleEnvironment s =
      { s with lightingEnvironment := "dark"
               lights := some { L with ambientIntensity := 3/10, directionalIntensity := 2/5 } } := by
  obtain ⟨mo, vis, pau, env, li, tsd, tsr, mr, msc, tr, ins, mx⟩ := s
  dsimp only at henv hl
  subst henv
  subst hl
  simp [cycleEnvironment, applyEnvironment, environments,
    show List.indexOf ("bright" : String) ["default", "bright", "dark", "colored"] = 1 from rfl]

lemma cycleEnvironment_from_dark (s : AppState) (L : Lights)
    (henv : s.lightingEnvironment = "dark") (hl : s.lights = some L) :
    cycleEnvironment s =
      { s with lightingEnvironment := "colored"
               lights := some { ambientColor := 0x4488ff, ambientIntensity := 4/5
                                directionalColor := 0xff8844, directionalIntensity := 4/5 } } := by
  obtain ⟨mo, vis, pau, env, li, tsd, tsr, mr, msc, tr, ins, mx⟩ := s
  dsimp only at henv hl
  subst henv
  subst hl
  simp [cycleEnvironment, applyEnvironment, environments,
    show List.indexOf ("dark" : String) ["default", "bright", "dark", "colored"] = 2 from rfl]

lemma cycleEnvironment_from_colored (s : AppState) (L : Lights)
    (henv : s.lightingEnvironment = "colored") (hl : s.lights = some L) :
    cycleEnvironment s =
      { s with lightingEnvironment := "default", lights := some defaultLights } := by
  obtain ⟨mo, vis, pau, env, li, tsd, tsr, mr, msc, tr, ins, mx⟩ := s
  dsimp only at henv hl
  subst henv
  subst hl
  simp [cycleEnvironment, applyEnvironment, environments, defaultLights,
    show List.indexOf ("colored" : String) ["default", "bright", "dark", "colored"] = 3 from rfl]

/-- Claim C6: from the `default` preset the cycle has period 4 (back to
`default`, restoring white light at `0.8/0.8`); among the four presets
only `colored` produces non-white light color channels (the others leave
white light white), and applying `default` yields white light with both
intensities `0.8`. -/
theorem lighting_cycle_period (s : AppState) (L : Lights)
    (henv : s.lightingEnvironment = "default") (hl : s.lights = some L)
    (ha : L.ambientColor = 0xffffff) (hd : L.directionalColor = 0xffffff) :
    (cycleEnvironment (cycleEnvironment (cycleEnvironment
      (cycleEnvironment s)))).lightingEnvironment = "default" ∧
    (cycleEnvironment (cycleEnvironment (cycleEnvironment
      (cycleEnvironment s)))).lights = some defaultLights ∧
    (∀ p ∈ environments, p ≠ "colored" →
      (applyEnvironment { s with lightingEnvironment := p }).lights.map
          Lights.ambientColor = some 0xffffff ∧
      (applyEnvironment { s with lightingEnvironment := p }).lights.map
          Lights.directionalColor = some 0xffffff) ∧
    ((applyEnvironment { s with lightingEnvironment := "colored" }).lights.map
        Lights.ambientColor = some 0x4488ff ∧
     (applyEnvironment { s with lightingEnvironment := "colored" }).lights.map
        Lights.directionalColor = some 0xff8844) ∧
    (applyEnvironment { s with lightingEnvironment := "default" }).lights =
      some defaultLights := by
  obtain ⟨mo, vis, pau, env, li, tsd, tsr, mr, msc, tr, ins, mx⟩ := s
  dsimp only at henv hl
  subst henv
  subst hl
  rw [cycleEnvironment_from_default
    (AppState.mk mo vis pau "default" (some L) tsd tsr mr msc tr ins mx) L rfl rfl]
  dsimp only
  rw [cycleEnvironment_from_bright
    (AppState.mk mo vis pau "bright"
      (some (Lights.mk L.ambientColor (6/5) L.directionalColor 1)) tsd tsr mr msc tr ins mx)
    (Lights.mk L.ambientColor (6/5) L.directionalColor 1) rfl rfl]
  dsimp only
  rw [cycleEnvironment_from_dark
    (AppState.mk mo vis pau "dark"
      (some (Lights.mk L.ambientColor (3/10) L.directionalColor (2/5))) tsd tsr mr msc tr ins mx)
    (Lights.mk L.ambientColor (3/10) L.directionalColor (2/5)) rfl rfl]
  dsimp only
  rw [cycleEnvironment_from_colored
    (AppState.mk mo vis pau "colored"
      (some (Lights.mk 0x4488ff (4/5) 0xff8844 (4/5))) tsd tsr mr msc tr ins mx)
    (Lights.mk 0x4488ff (4/5) 0xff8844 (4/5)) rfl rfl]
  refine ⟨rfl, rfl, ?_, ?_, ?_⟩
  · intro p hp hpc
    simp only [environments, List.mem_cons, List.not_mem_nil, or_false] at hp
    rcases hp with rfl | rfl | rfl | rfl
    · constructor <;> simp [applyEnvironment, ha, hd]
    · constructor <;> simp [applyEnvironment, ha, hd]
    · constructor <;> simp [applyEnvironment, ha, hd]
    · exact absurd rfl hpc
  · constructor <;> simp [applyEnvironment]
  · simp [applyEnvironment, defaultLights]

/-- A state with the bootstrap lights installed, for the lighting
witness. -/
def lightDemoState : AppState :=
  { initialState with lights := some defaultLights }

/-- Witness for `lighting_cycle_period` at the bootstrapped light
state. -/
theorem lighting_cycle_period_witness :
    (cycleEnvironment (cycleEnvironment (cycleEnvironment
      (cycleEnvironment lightDemoState)))).lightingEnvironment = "default" :=
  (lighting_cycle_period lightDemoState defaultLights rfl rfl rfl rfl).1

lemma tapRotation_touchStartTwo (s : AppState) (d : ℚ) :
    (touchStartTwo s d).tapRotation = s.tapRotation := by
  unfold touchStartTwo
  split <;> rfl

lemma tapRotation_touchMovePinch (s : AppState) (d : ℚ) :
    (touchMovePinch s d).tapRotation = s.tapRotation := by
  unfold touchMovePinch
  rcases hm : s.model with _ | m <;> simp only [hm]
  split <;> rfl

lemma tapRotation_touchMoveDrag (s : AppState) (dx : ℚ) :
    (touchMoveDrag s dx).tapRotation = s.tapRotation := by
  unfold touchMoveDrag
  rcases hm : s.model with _ | m <;> simp only [hm]
  split <;> rfl

lemma tapRotation_resetBtnClick (s : AppState) :
    (resetBtnClick s).tapRotation = s.tapRotation := by
  unfold resetBtnClick
  rcases hm : s.model with _ | m <;> simp only [hm]

lemma tapRotation_scaleSliderInput (s : AppState) (v : ℚ) :
    (scaleSliderInput s v).tapRotation = s.tapRotation := by
  unfold scaleSliderInput
  rcases hm : s.model with _ | m <;> simp [hm]

lemma tapRotation_applyEnvironment (s : AppState) :
    (applyEnvironment s).tapRotation = s.tapRotation := by
  unfold applyEnvironment
  rcases hl : s.lights with _ | L <;> simp only [hl]
  split_ifs <;> rfl

lemma tapRotation_cycleEnvironment (s : AppState) :
    (cycleEnvironment s).tapRotation = s.tapRotation :=
  tapRotation_applyEnvironment _

lemma tapRotation_animate (s : AppState) (t : ℚ) :
    (animate s t).tapRotation = s.tapRotation := by
  unfold animate
  rcases hm : s.model with _ | m <;> rcases hx : s.mixer with _ | mx <;>
    cases hv : s.isModelVisible <;> cases hp : s.isPaused <;> simp [hm, hx, hv, hp]

lemma tapRotation_step_ne_tap (s : AppState) (e : Event) (he : e ≠ Event.tap) :
    (step s e).tapRotation = s.tapRotation := by
  cases e with
  | tap => exact absurd rfl he
  | targetFound => rfl
  | targetLost => rfl
  | touchStart2 d => exact tapRotation_touchStartTwo s d
  | pinchMove d => exact tapRotation_touchMovePinch s d
  | dragMove dx => exact tapRotation_touchMoveDrag s dx
  | pauseBtn => rfl
  | resetBtn => exact tapRotation_resetBtnClick s
  | lightBtn => exact tapRotation_cycleEnvironment s
  | scaleSlider v => exact tapRotation_scaleSliderInput s v
  | tick t => exact tapRotation_animate s t
  | modelLoaded m => rfl

lemma effectiveTaps_cons_ne_tap (s : AppState) (e : Event) (es : List Event)
    (he : e ≠ Event.tap) :
    effectiveTaps s (e :: es) = effectiveTaps (step s e) es := by
  cases e <;> first
    | exact absurd rfl he
    | rfl

lemma effectiveTaps_no_tap (s : AppState) (es : List Event)
    (h : ∀ e ∈ es, e ≠ Event.tap) : effectiveTaps s es = 0 := by
  induction es generalizing s with
  | nil => rfl
  | cons e es ih =>
    rw [effectiveTaps_cons_ne_tap s e es (h e (by simp))]
    exact ih _ (fun q hq => h q (by simp [hq]))

lemma tapRotation_runEvents (s : AppState) (es : List Event) :
    (runEvents s es).tapRotation =
      s.tapRotation + ((0 : ℚ), (effectiveTaps s es : ℚ) * (1/4)) := by
  induction es generalizing s with
  | nil =>
    show s.tapRotation = s.tapRotation + ((0 : ℚ), ((0 : ℕ) : ℚ) * (1/4))
    apply Prod.ext <;> simp
  | cons e es ih =>
    by_cases he : e = Event.tap
    · subst he
      rw [runEvents_cons, ih]
      have heff : effectiveTaps s (Event.tap :: es) =
          (if s.isModelVisible && s.model.isSome then 1 else 0) +
            effectiveTaps (step s Event.tap) es := rfl
      rw [heff]
      rcases hm : s.model with _ | m
      · simp [step, clickTap, hm]
      · cases hv : s.isModelVisible
        · simp [step, clickTap, hm, hv]
        · simp only [step, clickTap, hm, hv, Option.isSome_some, Bool.true_and, reduceIte]
          rw [add_assoc]
          congr 1
          refine Prod.ext ?_ ?_
          · simp
          · simp [Prod.snd_add]
            ring
    · rw [runEvents_cons, ih, tapRotation_step_ne_tap s e he,
        effectiveTaps_cons_ne_tap s e es he]

/-- Claim C10: the tap accumulator lives in a closure independent of the
drag-rotation state and is not cleared by reset: after a history with
`n` effective taps (taps while visible with a model loaded), followed by
any drags and/or resets, the next tap while visible sets the model's yaw
to exactly `(n+1)·π/4` from zero, discarding drag- and reset-applied
rotation. -/
theorem tap_accumulator_independent (es₁ es₂ : List Event)
    (h₂ : ∀ e ∈ es₂, (∃ dx, e = Event.dragMove dx) ∨ e = Event.resetBtn)
    (hv : (runEvents (runEvents initialState es₁) es₂).isModelVisible = true)
    (hm : (runEvents (runEvents initialState es₁) es₂).model.isSome = true) :
    (clickTap (runEvents (runEvents initialState es₁) es₂)).model.map Model3D.rotY =
      some ((0 : ℚ), ((effectiveTaps initialState es₁ : ℚ) + 1) * (1/4)) ∧
    (clickTap (runEvents (runEvents initialState es₁) es₂)).tapRotation =
      ((0 : ℚ), ((effectiveTaps initialState es₁ : ℚ) + 1) * (1/4)) := by
  have hnt : ∀ e ∈ es₂, e ≠ Event.tap := by
    intro e he
    rcases h₂ e he with ⟨dx, rfl⟩ | rfl <;> intro hcon <;> exact Event.noConfusion hcon
  have htap : (runEvents (runEvents initialState es₁) es₂).tapRotation =
      ((0 : ℚ), (effectiveTaps initialState es₁ : ℚ) * (1/4)) := by
    rw [tapRotation_runEvents, tapRotation_runEvents, effectiveTaps_no_tap _ _ hnt]
    apply Prod.ext <;> simp [initialState]
  obtain ⟨m, hm'⟩ := Option.isSome_iff_exists.mp hm
  constructor
  · simp [clickTap, hm', hv, htap]
    ring
  · simp [clickTap, hm', hv, htap]
    ring

/-- Witness for `tap_accumulator_independent`: one effective tap, then a
drag and a reset, then the decisive tap. -/
theorem tap_accumulator_independent_witness :
    (clickTap (runEvents (runEvents initialState
        [Event.modelLoaded sampleModel, Event.targetFound, Event.tap])
        [Event.dragMove 50, Event.resetBtn])).tapRotation =
      ((0 : ℚ), ((effectiveTaps initialState
        [Event.modelLoaded sampleModel, Event.targetFound, Event.tap] : ℚ) + 1) * (1/4)) :=
  (tap_accumulator_independent
    [Event.modelLoaded sampleModel, Event.targetFound, Event.tap]
    [Event.dragMove 50, Event.resetBtn]
    (by intro e he
        simp only [List.mem_cons, List.not_mem_nil, or_false] at he
        rcases he with rfl | rfl
        · exact Or.inl ⟨50, rfl⟩
        · exact Or.inr rfl)
    rfl rfl).2

end WebAR
